import Mathlib

/-!
Verification of the `network_rag` package initializer.

The repository ships a single source file, `src/network_rag/__init__.py`,
whose whole body is a module docstring followed by two constant
assignments:

  __version__ = "0.0.1"
  __all__ = ["__version__"]

We embed the module body as a list of Python module-level statements and
give it an executable small-step semantics over a world that separates the
module's own namespace from process-wide state (an external namespace,
environment variables, and an output log recording I/O).  The statement
language includes forms the module could have used but does not (name
lookups, environment reads, `del`, `def`, `class`, printing, external
mutation), so that purity, determinism, immutability and totality claims
are falsifiable rather than true by typing.
-/

namespace NetworkRag

/-- Python values that can appear in this module's semantics. -/
inductive PyValue where
  | str (s : String)
  | strList (l : List String)
  | func (name : String)
  | cls (name : String)
  | pyNone
deriving DecidableEq

/-- Expressions on the right-hand side of a module-level assignment.
A literal always evaluates; a name lookup can raise `NameError`; an
environment read (as in `os.environ[n]`) can raise `KeyError`. -/
inductive PyExpr where
  | lit (v : PyValue)
  | name (n : String)
  | envRead (n : String)
deriving DecidableEq

/-- Errors a module-level statement can raise. -/
inductive PyError where
  | nameError (n : String)
  | keyError (n : String)
deriving DecidableEq

/-- Module-level statements.  Assignment and `del` target the module's
own namespace; `printCall` performs I/O; `externalWrite` mutates
process-wide state outside the module (as in `os.environ[n] = v`). -/
inductive Stmt where
  | assign (name : String) (e : PyExpr)
  | delName (name : String)
  | defFun (name : String)
  | defClass (name : String)
  | printCall (e : PyExpr)
  | externalWrite (name : String) (e : PyExpr)
deriving DecidableEq

/-- The world a module load executes in: the module's namespace, the
process-wide namespace outside the module, the environment variables,
and a log of output performed so far. -/
structure World where
  moduleNS : List (String × PyValue)
  externalNS : List (String × PyValue)
  env : List (String × String)
  outLog : List String
deriving DecidableEq

/-- Look a name up in a namespace (first binding wins). -/
def lookupName (ns : List (String × PyValue)) (n : String) : Option PyValue :=
  (ns.find? (fun p => p.1 == n)).map Prod.snd

/-- Bind a name in a namespace, overwriting an existing binding in place
and otherwise appending, as Python dict assignment does. -/
def setName (ns : List (String × PyValue)) (n : String) (v : PyValue) :
    List (String × PyValue) :=
  if ns.any (fun p => p.1 == n) then
    ns.map (fun p => if p.1 == n then (n, v) else p)
  else
    ns ++ [(n, v)]

/-- Look up an environment variable. -/
def lookupEnv (env : List (String × String)) (n : String) : Option String :=
  (env.find? (fun p => p.1 == n)).map Prod.snd

/-- Render a value for output. -/
def PyValue.display : PyValue → String
  | .str s => s
  | .strList l => String.intercalate ", " l
  | .func n => n
  | .cls n => n
  | .pyNone => "None"

/-- Evaluate an expression in a world. -/
def evalExpr (w : World) : PyExpr → Except PyError PyValue
  | .lit v => .ok v
  | .name n =>
    match lookupName w.moduleNS n with
    | some v => .ok v
    | none => .error (.nameError n)
  | .envRead n =>
    match lookupEnv w.env n with
    | some s => .ok (.str s)
    | none => .error (.keyError n)

/-- Execute one module-level statement. -/
def execStmt (w : World) : Stmt → Except PyError World
  | .assign n e =>
    (evalExpr w e).map fun v => { w with moduleNS := setName w.moduleNS n v }
  | .delName n =>
    if (lookupName w.moduleNS n).isSome then
      .ok { w with moduleNS := w.moduleNS.filter (fun p => p.1 != n) }
    else
      .error (.nameError n)
  | .defFun n => .ok { w with moduleNS := setName w.moduleNS n (.func n) }
  | .defClass n => .ok { w with moduleNS := setName w.moduleNS n (.cls n) }
  | .printCall e =>
    (evalExpr w e).map fun v => { w with outLog := w.outLog ++ [v.display] }
  | .externalWrite n e =>
    (evalExpr w e).map fun v => { w with externalNS := setName w.externalNS n v }

/-- Execute a module body in order, stopping at the first error. -/
def runBody (w : World) : List Stmt → Except PyError World
  | [] => .ok w
  | s :: rest =>
    match execStmt w s with
    | .ok w2 => runBody w2 rest
    | .error e => .error e

/-- Execute a module body with a fuel bound on the number of statements,
returning `none` when the fuel runs out before the body completes. -/
def runBodyFuel : Nat → World → List Stmt → Option (Except PyError World)
  | _, w, [] => some (.ok w)
  | 0, _, _ :: _ => none
  | fuel + 1, w, s :: rest =>
    match execStmt w s with
    | .ok w2 => runBodyFuel fuel w2 rest
    | .error e => some (.error e)

/-- The module docstring of `network_rag/__init__.py`, exactly as in the
source (a triple-quoted literal beginning and ending with a newline). -/
def docstringText : String :=
  "\nNetwork RAG - Network-based Retrieval-Augmented Generation\n\nPrecise retrieval with broad context.\n\nOpen-source Python framework that combines vector search with network relationships\nfor precise retrieval with broad context. Define your graph explicitly in code,\ndeploy anywhere with your current database and tech stack, and query with NXQL—\na composable query language built for hybrid retrieval.\n"

/-- The body of `src/network_rag/__init__.py`, in source order: the
docstring (bound to `__doc__`), then `__version__ = "0.0.1"`, then
`__all__ = ["__version__"]`. -/
def moduleBody : List Stmt :=
  [ .assign "__doc__" (.lit (.str docstringText)),
    .assign "__version__" (.lit (.str "0.0.1")),
    .assign "__all__" (.lit (.strList ["__version__"])) ]

/-- The world at the start of a module load: a fresh, empty module
namespace inside an arbitrary process state. -/
def initialWorld (extNS : List (String × PyValue)) (env : List (String × String))
    (lg : List String) : World :=
  ⟨[], extNS, env, lg⟩

/-- Load the module: execute its body from a fresh namespace. -/
def loadModule (w : World) : Except PyError World :=
  runBody w moduleBody

/-- The module namespace produced by loading the module in a clean world. -/
def loadedNS : List (String × PyValue) :=
  match loadModule (initialWorld [] [] []) with
  | .ok w => w.moduleNS
  | .error _ => []

/-- The namespace the load semantics computes, written out. -/
def finalNS : List (String × PyValue) :=
  [ ("__doc__", .str docstringText),
    ("__version__", .str "0.0.1"),
    ("__all__", .strList ["__version__"]) ]

/-- Whether a statement is a constant definition: an assignment whose
right-hand side is a literal. -/
def Stmt.isConstantDef : Stmt → Bool
  | .assign _ (.lit _) => true
  | _ => false

/-- The name a statement assigns, if it is an assignment. -/
def Stmt.targetName : Stmt → Option String
  | .assign n _ => some n
  | _ => none

/-- Whether a statement assigns to the given name. -/
def Stmt.assignsTo (s : Stmt) (n : String) : Bool :=
  match s with
  | .assign m _ => m == n
  | _ => false

/-- Whether a statement is a `del`. -/
def Stmt.isDel : Stmt → Bool
  | .delName _ => true
  | _ => false

/-- Whether a statement performs output. -/
def Stmt.isPrintStmt : Stmt → Bool
  | .printCall _ => true
  | _ => false

/-- Whether a statement mutates state outside the module namespace. -/
def Stmt.mutatesExternal : Stmt → Bool
  | .externalWrite _ _ => true
  | _ => false

/-- Whether a value is callable (a function or a class). -/
def PyValue.isCallable : PyValue → Bool
  | .func _ => true
  | .cls _ => true
  | _ => false

/-- Whether a value is a class (the only way the module could declare an
error type of its own). -/
def PyValue.isClassVal : PyValue → Bool
  | .cls _ => true
  | _ => false

/-- Split a character list on the dot character. -/
def splitOnDot : List Char → List (List Char)
  | [] => [[]]
  | c :: rest =>
    let r := splitOnDot rest
    if c = '.' then [] :: r
    else
      match r with
      | [] => [[c]]
      | g :: gs => (c :: g) :: gs

/-- Whether a string matches the MAJOR.MINOR.PATCH semantic-version
pattern: exactly three dot-separated components, each a non-empty run of
decimal digits. -/
def isSemVer (s : String) : Bool :=
  let parts := splitOnDot s.toList
  parts.length == 3 && parts.all (fun p => !p.isEmpty && p.all Char.isDigit)

/-- Whether a name begins with an underscore. -/
def startsWithUnderscore (n : String) : Bool :=
  match n.toList with
  | [] => false
  | c :: _ => c == '_'

/-- The public export surface of a loaded module under star-import
semantics: the contents of `__all__` when it is declared as a list of
strings, otherwise the bound names that do not start with an underscore. -/
def publicExports (ns : List (String × PyValue)) : List String :=
  match lookupName ns "__all__" with
  | some (.strList l) => l
  | _ => (ns.map Prod.fst).filter (fun n => !startsWithUnderscore n)

/-- The names a loaded module declares for export via `__all__`. -/
def exportedNames (ns : List (String × PyValue)) : List String :=
  match lookupName ns "__all__" with
  | some (.strList l) => l
  | _ => []

/-- Following the spec's words for the refinement comparison: the minimal
one-line module that declares only a version constant. -/
def minimalBody : List Stmt :=
  [ .assign "__version__" (.lit (.str "0.0.1")) ]

/-- The module namespace produced by loading the minimal one-line module
in a clean world. -/
def minimalNS : List (String × PyValue) :=
  match runBody (initialWorld [] [] []) minimalBody with
  | .ok w => w.moduleNS
  | .error _ => []

theorem loadModule_eq (extNS : List (String × PyValue)) (env : List (String × String))
    (lg : List String) :
    loadModule (initialWorld extNS env lg) = .ok ⟨finalNS, extNS, env, lg⟩ := rfl

/-- Claim C1: the exposed version identifier in the loaded module is a
non-empty string matching the MAJOR.MINOR.PATCH semantic-version
pattern. -/
theorem version_matches_semver :
    ∃ s, lookupName loadedNS "__version__" = some (.str s)
      ∧ s ≠ "" ∧ isSemVer s = true :=
  ⟨"0.0.1", by decide, by decide, by decide⟩

/-- Claim C2: the loaded module declares `__all__` to be exactly
`["__version__"]`, and every name it lists is bound in the module. -/
theorem all_declares_only_version :
    lookupName loadedNS "__all__" = some (.strList ["__version__"])
    ∧ exportedNames loadedNS = ["__version__"]
    ∧ (exportedNames loadedNS).all (fun n => (lookupName loadedNS n).isSome) = true := by
  refine ⟨by decide, by decide, by decide⟩

/-- Claim C3: loading the module from any process state succeeds and
changes only the module's own namespace — the external namespace, the
environment and the output log come back untouched — and the body
contains no output, external-mutation or deletion statement. -/
theorem load_pure_frame :
    ∀ (extNS : List (String × PyValue)) (env : List (String × String)) (lg : List String),
      (∃ ns, loadModule (initialWorld extNS env lg) = .ok ⟨ns, extNS, env, lg⟩)
      ∧ moduleBody.all
          (fun s => ! s.isPrintStmt && ! s.mutatesExternal && ! s.isDel) = true := by
  intro extNS env lg
  exact ⟨⟨finalNS, rfl⟩, by decide⟩

/-- Claim C4: the body assigns `__version__` exactly once, contains no
deletion (no teardown), defines no callable that could later change it,
and the loaded module binds `__version__` to the string "0.0.1". -/
theorem version_immutable_after_load :
    (moduleBody.filter (fun s => s.assignsTo "__version__")).length = 1
    ∧ moduleBody.all (fun s => ! s.isDel) = true
    ∧ loadedNS.all (fun p => ! p.2.isCallable) = true
    ∧ lookupName loadedNS "__version__" = some (.str "0.0.1") := by
  refine ⟨by decide, by decide, by decide, by decide⟩

/-- Claim C5: loading the module from any process state performs no
operation capable of failing — the load always returns a result rather
than an error — and the module declares no class, hence no error
taxonomy of its own. -/
theorem load_cannot_fail :
    ∀ (extNS : List (String × PyValue)) (env : List (String × String)) (lg : List String),
      (∃ w, loadModule (initialWorld extNS env lg) = .ok w)
      ∧ loadedNS.all (fun p => ! p.2.isClassVal) = true := by
  intro extNS env lg
  exact ⟨⟨⟨finalNS, extNS, env, lg⟩, rfl⟩, by decide⟩

/-- Claim C6, counterexample: the shipped module and the minimal one-line
module are not observationally equal in the claimed sense, because their
public export surfaces under star-import semantics differ even though
their version values agree. -/
theorem shipped_minimal_not_observationally_equal :
    ¬ (lookupName loadedNS "__version__" = lookupName minimalNS "__version__"
       ∧ publicExports loadedNS = publicExports minimalNS) := by
  decide

/-- Claim C6, amended: the shipped module and the minimal one-line module
agree on the version value, but their public export surfaces differ: the
shipped module exports `["__version__"]` through its explicit `__all__`,
while the minimal module's star-import surface is empty because
`__version__` is underscore-prefixed and no `__all__` is declared. -/
theorem shipped_minimal_agree_on_version :
    lookupName loadedNS "__version__" = some (.str "0.0.1")
    ∧ lookupName minimalNS "__version__" = some (.str "0.0.1")
    ∧ publicExports loadedNS = ["__version__"]
    ∧ publicExports minimalNS = [] := by
  refine ⟨by decide, by decide, by decide, by decide⟩

/-- Claim C7: the module body is a fixed sequence of exactly three
constant definitions — literal assignments to `__doc__`, `__version__`
and `__all__` in that order — so no function, class, branch, loop,
deletion, output or external mutation is defined or executed. -/
theorem module_body_constant_defs_only :
    moduleBody.length = 3
    ∧ moduleBody.all Stmt.isConstantDef = true
    ∧ moduleBody.map Stmt.targetName
        = [some "__doc__", some "__version__", some "__all__"] := by
  refine ⟨by decide, by decide, by decide⟩

/-- Claim C8: the loaded module binds `__version__` to exactly the
string "0.0.1". -/
theorem version_is_0_0_1 :
    lookupName loadedNS "__version__" = some (.str "0.0.1") := by
  decide

/-- Claim C9: module loading is deterministic and independent of the
environment — any two loads, whatever the external namespace, environment
variables and prior output, produce the same module namespace, namely the
one written out in `finalNS`. -/
theorem load_deterministic_noninterference :
    ∀ (e1 e2 : List (String × PyValue)) (v1 v2 : List (String × String))
      (l1 l2 : List String),
      (loadModule (initialWorld e1 v1 l1)).map World.moduleNS
        = (loadModule (initialWorld e2 v2 l2)).map World.moduleNS
      ∧ (loadModule (initialWorld e1 v1 l1)).map World.moduleNS = .ok finalNS := by
  intro e1 e2 v1 v2 l1 l2
  exact ⟨rfl, rfl⟩

/-- Claim C10: module load always terminates — executing the body with
fuel equal to its length (three statements) already completes and agrees
with the unbounded execution, from any starting process state. -/
theorem load_terminates_in_three_steps :
    ∀ (extNS : List (String × PyValue)) (env : List (String × String)) (lg : List String),
      runBodyFuel moduleBody.length (initialWorld extNS env lg) moduleBody
        = some (loadModule (initialWorld extNS env lg))
      ∧ moduleBody.length = 3 := by
  intro extNS env lg
  exact ⟨rfl, rfl⟩

end NetworkRag
